import Mathlib

/-!
Verification of the vendor-portal client's session and permission logic.

The development shallowly embeds the JavaScript source:
- JS objects holding permission flags become association lists over `JsVal`;
- `localStorage` becomes an explicit record of the keys the code touches,
  with a stored entry either a well-formed serialization of a value or a
  malformed string that `JSON.parse` rejects;
- stateful functions become explicit state-passing functions;
- network responses become explicit outcome values passed to the handler.
-/

/-- A JavaScript value as it appears in the permission objects: the code only
inspects boolean flags and role strings. -/
inductive JsVal where
  | bool (b : Bool)
  | str (s : String)
deriving DecidableEq

/-- JS truthiness for the values above: `false` and the empty string are falsy. -/
def truthy : JsVal → Bool
  | .bool b => b
  | .str s => decide (s ≠ "")

/-- A JS object as a key/value association list. -/
abbrev JsObj := List (String × JsVal)

/-- Property lookup `o[key]`: `none` models `undefined`. -/
def JsObj.get : JsObj → String → Option JsVal
  | [], _ => none
  | (k, v) :: rest, key => if k = key then some v else JsObj.get rest key

/-- JS `a || b`: returns `a` when truthy, otherwise `b` (`none` models
`undefined`, which is falsy). -/
def jsOr (a b : Option JsVal) : Option JsVal :=
  match a with
  | some v => if truthy v then some v else b
  | none => b

/-- The user profile stored by the auth service and read through `useAuth()`.
`role` is `Option` because `user?.role` may be `undefined`. -/
structure User where
  role : Option String
  user_id : String
  vendor_id : Option String
deriving DecidableEq

/-- A client-storage entry holding JSON text: either the serialization of a
value of type `α`, or a malformed string on which `JSON.parse` throws. -/
inductive StoredJson (α : Type) where
  | val (a : α)
  | malformed
deriving DecidableEq

/-- `JSON.parse` on a stored entry: succeeds exactly on well-formed entries. -/
def StoredJson.parse {α : Type} : StoredJson α → Option α
  | .val a => some a
  | .malformed => none

/-! ### Permission resolver (src/hooks/useEmployeePermissions.js) -/

/-- The permission object the hook builds for a `vendor` user: identity
fields plus the four employee-management flags, all true.  Faithful to the
object literal in the `vendor` branch of `loadPermissions`. -/
def vendorPermissions (u : User) : JsObj :=
  [ ("user_id", .str u.user_id),
    ("vendor_id", .str (match u.vendor_id with
      | some v => if v = "" then "unknown" else v
      | none => "unknown")),
    ("user_type", .str "vendor_admin"),
    ("can_create_employees", .bool true),
    ("can_edit_employees", .bool true),
    ("can_delete_employees", .bool true),
    ("can_deactivate_employees", .bool true) ]

/-- The resolved `permissions` state after the hook's `loadPermissions`
effect runs: employees read (and parse) the cached `employee_permissions`
storage entry, vendors get the fixed full-capability object, and every
other role (or no user) resolves to `null`.  A malformed cached entry makes
`JSON.parse` throw; the surrounding `catch` sets the state to `null`. -/
def loadPermissions (user : Option User) (stored : Option (StoredJson JsObj)) :
    Option JsObj :=
  match user with
  | some u =>
    if u.role = some "employee" then
      match stored with
      | some raw => raw.parse
      | none => none
    else if u.role = some "vendor" then
      some (vendorPermissions u)
    else none
  | none => none

/-- `hasPermission(name)`: `permissions[name] === true`, false when the
resolved permission state is `null`. -/
def hasPermission (perms : Option JsObj) (name : String) : Bool :=
  match perms with
  | none => false
  | some o => decide (o.get name = some (.bool true))

/-- `isVendorAdmin()`: `user?.role === 'vendor'`. -/
def isVendorAdmin (user : Option User) : Bool :=
  match user with
  | some u => decide (u.role = some "vendor")
  | none => false

/-- `isEmployee()`: `user?.role === 'employee'`. -/
def isEmployee (user : Option User) : Bool :=
  match user with
  | some u => decide (u.role = some "employee")
  | none => false

/-- `getEmployeeRole()`: `'admin'` for vendor admins, otherwise
`permissions.employee_role || permissions.user_type` (with `null`
permissions giving `null`). -/
def getEmployeeRole (user : Option User) (perms : Option JsObj) : Option JsVal :=
  if isVendorAdmin user then some (.str "admin")
  else match perms with
  | none => none
  | some o => jsOr (o.get "employee_role") (o.get "user_type")

/-- `canManageEmployees()`: any of the create/edit/deactivate employee
permissions. -/
def canManageEmployees (perms : Option JsObj) : Bool :=
  hasPermission perms "can_create_employees" ||
    hasPermission perms "can_edit_employees" ||
    hasPermission perms "can_deactivate_employees"

/-- `canEditContent()`: vendor admin, or employee sub-role editor/manager. -/
def canEditContent (user : Option User) (perms : Option JsObj) : Bool :=
  isVendorAdmin user ||
    decide (getEmployeeRole user perms = some (.str "editor")) ||
    decide (getEmployeeRole user perms = some (.str "manager"))

/-- `isViewerOnly()`: the resolved sub-role is exactly `'viewer'`. -/
def isViewerOnly (user : Option User) (perms : Option JsObj) : Bool :=
  decide (getEmployeeRole user perms = some (.str "viewer"))

/-- `canAccessAnalytics()`: role is vendor or employee. -/
def canAccessAnalytics (user : Option User) : Bool :=
  match user with
  | some u => decide (u.role = some "vendor") || decide (u.role = some "employee")
  | none => false

/-! ### Claim C1 -/

/-- Claim C1, counterexample.  The claim says that for a vendor session
`hasPermission(name)` is true for every permission name.  It is not: the
vendor permission object contains exactly four true flags, and any other
name looks up `undefined`, so for the vendor session below
`hasPermission "anything"` is false. -/
theorem hasPermission_vendor_counterexample :
    ¬ (∀ name : String,
        hasPermission
          (loadPermissions
            (some { role := some "vendor", user_id := "u1", vendor_id := some "v1" })
            none)
          name = true) := by
  intro h
  have h2 := h "anything"
  simp [loadPermissions, vendorPermissions, hasPermission, JsObj.get] at h2

/-- Claim C1, amended: for every session whose role is vendor,
`hasPermission(name)` returns true exactly when `name` is one of the four
employee-management permission names held as true flags in the vendor
permission object — every other name (absent from the object, or present
with a non-boolean value) yields false — and `isViewerOnly()` returns
false. -/
theorem hasPermission_vendor_amended (u : User)
    (stored : Option (StoredJson JsObj)) (h : u.role = some "vendor") :
    (∀ name : String,
      hasPermission (loadPermissions (some u) stored) name = true ↔
        (name = "can_create_employees" ∨ name = "can_edit_employees" ∨
          name = "can_delete_employees" ∨ name = "can_deactivate_employees")) ∧
    isViewerOnly (some u) (loadPermissions (some u) stored) = false := by
  have hload : loadPermissions (some u) stored = some (vendorPermissions u) := by
    simp [loadPermissions, h]
  constructor
  · intro name
    rw [hload]
    by_cases h1 : name = "can_create_employees"
    · subst h1
      simp [hasPermission, vendorPermissions, JsObj.get]
    · by_cases h2 : name = "can_edit_employees"
      · subst h2
        simp [hasPermission, vendorPermissions, JsObj.get]
      · by_cases h3 : name = "can_delete_employees"
        · subst h3
          simp [hasPermission, vendorPermissions, JsObj.get]
        · by_cases h4 : name = "can_deactivate_employees"
          · subst h4
            simp [hasPermission, vendorPermissions, JsObj.get]
          · simp only [hasPermission, vendorPermissions, JsObj.get]
            split_ifs with g1 g2 g3 g4 g5 g6 g7 <;> simp_all
  · rw [hload]
    simp [isViewerOnly, getEmployeeRole, isVendorAdmin, h]

/-- Claim C1, witness for the amended theorem at a concrete vendor session:
a stored flag name is granted, a name outside the object is denied, and the
session is not viewer-only. -/
theorem hasPermission_vendor_amended_witness :
    hasPermission
      (loadPermissions
        (some { role := some "vendor", user_id := "u1", vendor_id := some "v1" })
        none)
      "can_create_employees" = true ∧
    hasPermission
      (loadPermissions
        (some { role := some "vendor", user_id := "u1", vendor_id := some "v1" })
        none)
      "anything" = false ∧
    isViewerOnly
      (some { role := some "vendor", user_id := "u1", vendor_id := some "v1" })
      (loadPermissions
        (some { role := some "vendor", user_id := "u1", vendor_id := some "v1" })
        none) = false := by
  have h := hasPermission_vendor_amended
    { role := some "vendor", user_id := "u1", vendor_id := some "v1" } none rfl
  refine ⟨(h.1 "can_create_employees").mpr (Or.inl rfl), ?_, h.2⟩
  cases hb : hasPermission
      (loadPermissions
        (some { role := some "vendor", user_id := "u1", vendor_id := some "v1" })
        none)
      "anything"
  · rfl
  · exact absurd ((h.1 "anything").mp hb) (by decide)

/-! ### Claim C7 -/

/-- Modelled from the spec: the login-time derivation of the cached employee
permission object from the employee's sub-role is not present under the
given sources (nothing in them writes the `employee_permissions` storage
key).  Per the spec's data model, the booleans are derived from the stored
sub-role (viewer/editor/manager), a viewer never has mutating capability,
and only the manager sub-role may manage other employees. -/
def derivedEmployeePermissions (subRole : String) : JsObj :=
  [ ("employee_role", .str subRole),
    ("can_create_employees", .bool (subRole = "manager")),
    ("can_edit_employees", .bool (subRole = "manager")),
    ("can_delete_employees", .bool (subRole = "manager")),
    ("can_deactivate_employees", .bool (subRole = "manager")) ]

/-- Claim C7: `canManageEmployees()` is true iff at least one of the
create/edit/deactivate employee permissions is true, and for an employee
session whose cached permission object is the one derived for the manager
sub-role, `canManageEmployees()` is true. -/
theorem canManageEmployees_spec (u : User) (perms : Option JsObj)
    (h : u.role = some "employee") :
    canManageEmployees perms =
      (hasPermission perms "can_create_employees" ||
        hasPermission perms "can_edit_employees" ||
        hasPermission perms "can_deactivate_employees") ∧
    canManageEmployees
      (loadPermissions (some u)
        (some (.val (derivedEmployeePermissions "manager")))) = true := by
  refine ⟨rfl, ?_⟩
  simp [loadPermissions, h, StoredJson.parse, canManageEmployees,
    hasPermission, derivedEmployeePermissions, JsObj.get]

/-- Claim C7, witness at a concrete employee-with-manager-sub-role session. -/
theorem canManageEmployees_spec_witness :
    canManageEmployees
      (loadPermissions
        (some { role := some "employee", user_id := "e1", vendor_id := none })
        (some (.val (derivedEmployeePermissions "manager")))) = true := by
  exact (canManageEmployees_spec
    { role := some "employee", user_id := "e1", vendor_id := none } none rfl).2

/-! ### Claim C8 -/

/-- Claim C8: for a session whose role is neither vendor nor employee
(including a missing user or missing role), the resolver yields a `null`
permission state and every capability check returns false. -/
theorem failClosed_other_roles (user : Option User)
    (stored : Option (StoredJson JsObj)) (name : String)
    (h : ∀ u, user = some u → u.role ≠ some "vendor" ∧ u.role ≠ some "employee") :
    loadPermissions user stored = none ∧
    hasPermission (loadPermissions user stored) name = false ∧
    isVendorAdmin user = false ∧
    isEmployee user = false ∧
    canEditContent user (loadPermissions user stored) = false ∧
    isViewerOnly user (loadPermissions user stored) = false ∧
    canManageEmployees (loadPermissions user stored) = false ∧
    canAccessAnalytics user = false := by
  have hperm : loadPermissions user stored = none := by
    cases user with
    | none => rfl
    | some u =>
      have ⟨h1, h2⟩ := h u rfl
      simp [loadPermissions, h1, h2]
  have hva : isVendorAdmin user = false := by
    cases user with
    | none => rfl
    | some u => simp [isVendorAdmin, (h u rfl).1]
  have hrole : getEmployeeRole user (loadPermissions user stored) = none := by
    rw [hperm]
    simp [getEmployeeRole, hva]
  refine ⟨hperm, ?_, hva, ?_, ?_, ?_, ?_, ?_⟩
  · rw [hperm]; rfl
  · cases user with
    | none => rfl
    | some u => simp [isEmployee, (h u rfl).2]
  · simp [canEditContent, hva, hrole]
  · simp [isViewerOnly, hrole]
  · simp [canManageEmployees, hasPermission, hperm]
  · cases user with
    | none => rfl
    | some u => simp [canAccessAnalytics, (h u rfl).1, (h u rfl).2]

/-- Claim C8, witness at a concrete patient session with a cached permission
object present. -/
theorem failClosed_other_roles_witness :
    hasPermission
      (loadPermissions
        (some { role := some "patient", user_id := "p1", vendor_id := none })
        (some (.val [("can_create_employees", .bool true)])))
      "can_create_employees" = false ∧
    canAccessAnalytics
      (some { role := some "patient", user_id := "p1", vendor_id := none }) = false := by
  have h := failClosed_other_roles
    (some { role := some "patient", user_id := "p1", vendor_id := none })
    (some (.val [("can_create_employees", .bool true)]))
    "can_create_employees"
    (by intro u hu; cases hu; exact ⟨by decide, by decide⟩)
  exact ⟨h.2.1, h.2.2.2.2.2.2.2⟩

/-! ### Session service, class version (src/services/authService.js) -/

/-- The client-storage slots the session code touches: the bearer token, the
serialized user profile, and the cached employee permission object. -/
structure Storage where
  auth_token : Option String
  user_data : Option (StoredJson User)
  employee_permissions : Option (StoredJson JsObj)
deriving DecidableEq

namespace AuthService

/-- `logout()`: removes the token and user keys from storage. -/
def logout (s : Storage) : Storage :=
  { s with auth_token := none, user_data := none }

/-- `isAuthenticated()`: `!!this.getToken()`. -/
def isAuthenticated (s : Storage) : Bool :=
  s.auth_token.isSome

/-- `getCurrentUser()`: parses the stored user entry, returning `null` when
the entry is absent or `JSON.parse` throws; storage is returned unchanged to
make the absence of a write explicit. -/
def getCurrentUser (s : Storage) : Option User × Storage :=
  match s.user_data with
  | some raw => (raw.parse, s)
  | none => (none, s)

end AuthService

/-- The outcome of an axios request: a 2xx response with parsed body, a
non-2xx response (axios rejects), or a network failure (axios rejects). -/
inductive AxiosResult (β : Type) where
  | ok (data : β)
  | httpError (status : Nat)
  | networkFailure
deriving DecidableEq

/-- The body of the validation endpoint's response, as far as the code
inspects it: an optional `valid` field. -/
structure ValidateBody where
  valid : Option JsVal
deriving DecidableEq

/-- `validateToken()`: false with no stored token; on a response, returns
`response.data.valid === true`; any axios rejection (non-2xx or network
failure) lands in the `catch` and yields false. -/
def AuthService.validateToken (token : Option String)
    (resp : AxiosResult ValidateBody) : Bool :=
  match token with
  | none => false
  | some _ =>
    match resp with
    | .ok data => decide (data.valid = some (.bool true))
    | .httpError _ => false
    | .networkFailure => false

/-- The auth startup effect in `AuthContext` (`useEffect` on mount): when a
token is stored, validate it; on success read the stored user, otherwise log
out.  Returns the updated storage and the `user` context state. -/
def initAuth (s : Storage) (resp : AxiosResult ValidateBody) :
    Storage × Option User :=
  if AuthService.isAuthenticated s then
    if AuthService.validateToken s.auth_token resp then
      (s, (AuthService.getCurrentUser s).1)
    else
      (AuthService.logout s, none)
  else
    (s, none)

/-! ### Claim C3 -/

/-- Claim C3, counterexample.  The claim says logout empties all three
storage slots.  On a state where all three are populated, logout leaves the
cached employee permission object in place: no code path removes the
`employee_permissions` key. -/
theorem logout_counterexample :
    ¬ ((AuthService.logout
          { auth_token := some "tok",
            user_data := some (.val { role := some "vendor", user_id := "u1", vendor_id := none }),
            employee_permissions := some (.val [("can_create_employees", .bool true)]) }).auth_token = none ∧
       (AuthService.logout
          { auth_token := some "tok",
            user_data := some (.val { role := some "vendor", user_id := "u1", vendor_id := none }),
            employee_permissions := some (.val [("can_create_employees", .bool true)]) }).user_data = none ∧
       (AuthService.logout
          { auth_token := some "tok",
            user_data := some (.val { role := some "vendor", user_id := "u1", vendor_id := none }),
            employee_permissions := some (.val [("can_create_employees", .bool true)]) }).employee_permissions = none) := by
  intro h
  exact absurd h.2.2 (by simp [AuthService.logout])

/-- Claim C3, amended: `logout()` clears the stored token and the stored
user profile; the cached employee permission object is not cleared and is
left exactly as it was. -/
theorem logout_amended (s : Storage) :
    (AuthService.logout s).auth_token = none ∧
    (AuthService.logout s).user_data = none ∧
    (AuthService.logout s).employee_permissions = s.employee_permissions := by
  exact ⟨rfl, rfl, rfl⟩

/-! ### Claim C4 -/

/-- Claim C4, counterexample.  The claim says validity is decided from the
response status alone, ignoring the body.  Two 2xx responses that differ
only in the body's `valid` field give different results, and in particular a
2xx response whose body lacks `valid: true` is judged invalid. -/
theorem validateToken_counterexample :
    ¬ (AuthService.validateToken (some "tok") (.ok { valid := some (.bool false) }) =
       AuthService.validateToken (some "tok") (.ok { valid := some (.bool true) })) := by
  decide

/-- Claim C4, amended: `validateToken()` returns false for every non-2xx
response and every network failure (never treating them as authenticated),
the startup flow reacts to any validation failure by logging out, and for a
2xx response validity is decided by the body's `valid` field being exactly
`true`, not by the status alone. -/
theorem validateToken_amended (tok : Option String) (st : Nat) (b : ValidateBody)
    (resp : AxiosResult ValidateBody) (s : Storage)
    (hs : s.auth_token.isSome = true)
    (hfail : AuthService.validateToken s.auth_token resp = false) :
    AuthService.validateToken tok (.httpError st) = false ∧
    AuthService.validateToken tok .networkFailure = false ∧
    (AuthService.validateToken tok (.ok b) = true ↔
      tok.isSome = true ∧ b.valid = some (.bool true)) ∧
    initAuth s resp = (AuthService.logout s, none) := by
  refine ⟨?_, ?_, ?_, ?_⟩
  · cases tok <;> rfl
  · cases tok <;> rfl
  · cases tok <;> simp [AuthService.validateToken]
  · simp [initAuth, AuthService.isAuthenticated, hs, hfail]

/-- Claim C4, witness: a concrete stored token with a network failure during
validation, checked against the amended theorem. -/
theorem validateToken_amended_witness :
    AuthService.validateToken (some "t") (.httpError 500) = false ∧
    AuthService.validateToken (some "t") .networkFailure = false ∧
    initAuth
      { auth_token := some "t", user_data := none, employee_permissions := none }
      .networkFailure =
      (AuthService.logout
        { auth_token := some "t", user_data := none, employee_permissions := none },
       none) := by
  have h := validateToken_amended (some "t") 500 { valid := none } .networkFailure
    { auth_token := some "t", user_data := none, employee_permissions := none }
    rfl rfl
  exact ⟨h.1, h.2.1, h.2.2.2⟩

/-! ### Claim C10 -/

/-- Claim C10: `getCurrentUser()` never fails: it leaves storage unchanged,
returns `null` when the stored user entry is absent, and returns `null`
(rather than throwing) when the entry is present but not valid JSON. -/
theorem getCurrentUser_total (s : Storage) :
    (AuthService.getCurrentUser s).2 = s ∧
    (s.user_data = none → (AuthService.getCurrentUser s).1 = none) ∧
    (s.user_data = some .malformed → (AuthService.getCurrentUser s).1 = none) := by
  refine ⟨?_, ?_, ?_⟩
  · cases h : s.user_data <;> simp [AuthService.getCurrentUser, h]
  · intro h; simp [AuthService.getCurrentUser, h]
  · intro h; simp [AuthService.getCurrentUser, h, StoredJson.parse]

/-- Claim C10, witness at a concrete storage state holding a malformed user
entry. -/
theorem getCurrentUser_total_witness :
    (AuthService.getCurrentUser
      { auth_token := some "t", user_data := some .malformed,
        employee_permissions := none }).2 =
      { auth_token := some "t", user_data := some .malformed,
        employee_permissions := none } ∧
    (AuthService.getCurrentUser
      { auth_token := some "t", user_data := some .malformed,
        employee_permissions := none }).1 = none := by
  have h := getCurrentUser_total
    { auth_token := some "t", user_data := some .malformed,
      employee_permissions := none }
  exact ⟨h.1, h.2.2 rfl⟩

/-! ### Session service, JWT version (the object-literal authService bundled
with apiService and axiosService) -/

/-- A JWT payload, as far as `isAuthenticated` inspects it: the embedded
expiry, in seconds. -/
structure JwtPayload where
  exp : Int
deriving DecidableEq

/-- A stored token: either one whose payload section decodes, or garbage on
which `parseJwt` returns `null`. -/
inductive Jwt where
  | signed (payload : JwtPayload)
  | garbled
deriving DecidableEq

/-- `parseJwt(token)`: decodes the payload, `null` on failure. -/
def parseJwt : Jwt → Option JwtPayload
  | .signed p => some p
  | .garbled => none

/-- Client state for the JWT auth service: the storage slots, the current
window location, and a history variable counting `logout()` invocations
(used to state that a handler performs exactly one logout). -/
structure ClientState where
  auth_token : Option Jwt
  user_info : Option (StoredJson User)
  employee_permissions : Option (StoredJson JsObj)
  location : String
  logoutCount : Nat
deriving DecidableEq

namespace AuthServiceJwt

/-- `logout()`: removes the token and user keys and redirects the window to
the login page. -/
def logout (s : ClientState) : ClientState :=
  { s with auth_token := none, user_info := none,
           location := "/login", logoutCount := s.logoutCount + 1 }

/-- `isAuthenticated()` at time `now` (seconds): false with no token; an
expired payload triggers `logout()` and returns false; an undecodable
payload makes `payload.exp` throw, which the surrounding `catch` turns into
false with no state change. -/
def isAuthenticated (now : Int) (s : ClientState) : Bool × ClientState :=
  match s.auth_token with
  | none => (false, s)
  | some t =>
    match parseJwt t with
    | none => (false, s)
    | some p => if p.exp < now then (false, logout s) else (true, s)

end AuthServiceJwt

/-! ### Claim C2 -/

/-- Claim C2: `isAuthenticated()` returns true iff a token is stored and its
embedded expiry has not yet passed; a past-expiry token yields false and
clears the stored session (token and user), and a second call returns the
same cleared state. -/
theorem isAuthenticated_expiry (now : Int) (s : ClientState) (t : Jwt)
    (p : JwtPayload) (ht : s.auth_token = some t) (hp : parseJwt t = some p)
    (hexp : p.exp < now) :
    (∀ s2 : ClientState,
      ((AuthServiceJwt.isAuthenticated now s2).1 = true ↔
        ∃ t2 p2, s2.auth_token = some t2 ∧ parseJwt t2 = some p2 ∧ now ≤ p2.exp)) ∧
    AuthServiceJwt.isAuthenticated now s = (false, AuthServiceJwt.logout s) ∧
    (AuthServiceJwt.logout s).auth_token = none ∧
    (AuthServiceJwt.logout s).user_info = none ∧
    AuthServiceJwt.isAuthenticated now (AuthServiceJwt.logout s) =
      (false, AuthServiceJwt.logout s) := by
  refine ⟨?_, ?_, rfl, rfl, rfl⟩
  · intro s2
    cases h1 : s2.auth_token with
    | none => simp [AuthServiceJwt.isAuthenticated, h1]
    | some t2 =>
      cases h2 : parseJwt t2 with
      | none => simp [AuthServiceJwt.isAuthenticated, h1, h2]
      | some p2 =>
        by_cases hlt : p2.exp < now
        · have hres : (AuthServiceJwt.isAuthenticated now s2).1 = false := by
            simp [AuthServiceJwt.isAuthenticated, h1, h2, hlt]
          rw [hres]
          apply iff_of_false (by simp)
          rintro ⟨t3, p3, ht3, hp3, hle⟩
          cases ht3
          rw [h2] at hp3
          cases hp3
          omega
        · have hres : (AuthServiceJwt.isAuthenticated now s2).1 = true := by
            simp [AuthServiceJwt.isAuthenticated, h1, h2, hlt]
          rw [hres]
          exact iff_of_true rfl ⟨t2, p2, rfl, h2, by omega⟩
  · simp [AuthServiceJwt.isAuthenticated, ht, hp, hexp]

/-- Claim C2, witness: a concrete state holding a token that expired at 50,
checked at time 100. -/
theorem isAuthenticated_expiry_witness :
    AuthServiceJwt.isAuthenticated 100
      { auth_token := some (.signed { exp := 50 }),
        user_info := some (.val { role := some "vendor", user_id := "u1", vendor_id := none }),
        employee_permissions := none, location := "/dashboard", logoutCount := 0 } =
      (false,
        AuthServiceJwt.logout
          { auth_token := some (.signed { exp := 50 }),
            user_info := some (.val { role := some "vendor", user_id := "u1", vendor_id := none }),
            employee_permissions := none, location := "/dashboard", logoutCount := 0 }) ∧
    AuthServiceJwt.isAuthenticated 100
      (AuthServiceJwt.logout
        { auth_token := some (.signed { exp := 50 }),
          user_info := some (.val { role := some "vendor", user_id := "u1", vendor_id := none }),
          employee_permissions := none, location := "/dashboard", logoutCount := 0 }) =
      (false,
        AuthServiceJwt.logout
          { auth_token := some (.signed { exp := 50 }),
            user_info := some (.val { role := some "vendor", user_id := "u1", vendor_id := none }),
            employee_permissions := none, location := "/dashboard", logoutCount := 0 }) := by
  have h := isAuthenticated_expiry 100
    { auth_token := some (.signed { exp := 50 }),
      user_info := some (.val { role := some "vendor", user_id := "u1", vendor_id := none }),
      employee_permissions := none, location := "/dashboard", logoutCount := 0 }
    (.signed { exp := 50 }) { exp := 50 } rfl rfl (by decide)
  exact ⟨h.2.1, h.2.2.2.2⟩

/-! ### API response handling (apiService / axiosService) -/

/-- A fetch response, as far as `handleResponse` inspects it: the status and
the body text. -/
structure FetchResponse where
  status : Nat
  bodyText : String
deriving DecidableEq

/-- `response.ok`: status in the 2xx range. -/
def FetchResponse.respOk (r : FetchResponse) : Bool :=
  decide (200 ≤ r.status ∧ r.status < 300)

/-- `handleResponse(response)`: on a non-ok response, a 401 logs the user
out and raises the session-expired error; other errors raise the body text
(or a generic message); an ok response yields the body. -/
def handleResponse (s : ClientState) (r : FetchResponse) :
    ClientState × Except String String :=
  if r.respOk then (s, .ok r.bodyText)
  else if r.status = 401 then
    (AuthServiceJwt.logout s, .error "Your session has expired. Please login again.")
  else
    (s, .error (if r.bodyText = "" then "API request failed" else r.bodyText))

/-- An axios request failure: either the server answered with an error
status, or no response arrived. -/
inductive AxiosFailure where
  | response (status : Nat)
  | noResponse
deriving DecidableEq

/-- The axios response interceptor's error handler: a 401 response logs the
user out (the logout redirects to login); every error is re-raised. -/
def interceptorOnError (s : ClientState) (e : AxiosFailure) : ClientState :=
  match e with
  | .response st => if st = 401 then AuthServiceJwt.logout s else s
  | .noResponse => s

/-- The trials request of Billing's `fetchBillingData`: the page calls
`fetch` directly and throws `'Failed to fetch trials'` on any non-ok
response — the 401 case included — which its own `catch` turns into a local
error state.  No logout and no redirect happen on this path. -/
def fetchBillingTrials (s : ClientState) (r : FetchResponse) :
    ClientState × Except String String :=
  if r.respOk then (s, .ok r.bodyText)
  else (s, .error "Failed to fetch trials")

/-! ### Claim C5 -/

/-- Claim C5, counterexample.  The claim says every 401 from any
authenticated endpoint, whatever view issued the request, triggers exactly
one logout and a redirect to login.  Billing's trials request bypasses the
shared handlers: on the concrete 401 below it surfaces a local error and
returns the state untouched, which is not the logged-out state. -/
theorem unauthorized_single_logout_counterexample :
    fetchBillingTrials
      { auth_token := some (.signed { exp := 900 }),
        user_info := some (.val { role := some "vendor", user_id := "v1", vendor_id := none }),
        employee_permissions := none, location := "/billing", logoutCount := 0 }
      { status := 401, bodyText := "" } =
      ({ auth_token := some (.signed { exp := 900 }),
         user_info := some (.val { role := some "vendor", user_id := "v1", vendor_id := none }),
         employee_permissions := none, location := "/billing", logoutCount := 0 },
       .error "Failed to fetch trials") ∧
    ({ auth_token := some (.signed { exp := 900 }),
       user_info := some (.val { role := some "vendor", user_id := "v1", vendor_id := none }),
       employee_permissions := none, location := "/billing", logoutCount := 0 } : ClientState) ≠
      AuthServiceJwt.logout
        { auth_token := some (.signed { exp := 900 }),
          user_info := some (.val { role := some "vendor", user_id := "v1", vendor_id := none }),
          employee_permissions := none, location := "/billing", logoutCount := 0 } := by
  exact ⟨rfl, by decide⟩

/-- Claim C5, amended: a 401 response that reaches the shared handlers —
apiService's response helper or the axios response interceptor — performs
exactly one logout, clearing the stored token and user and redirecting the
window to the login page; but a 401 on a request whose view does its own
error handling, such as Billing's trials fetch, produces only a local error
with no logout and no redirect. -/
theorem unauthorized_single_logout (s1 s2 s3 : ClientState) (r : FetchResponse)
    (h : r.status = 401) :
    handleResponse s1 r =
      (AuthServiceJwt.logout s1, .error "Your session has expired. Please login again.") ∧
    interceptorOnError s2 (.response 401) = AuthServiceJwt.logout s2 ∧
    (AuthServiceJwt.logout s1).logoutCount = s1.logoutCount + 1 ∧
    (AuthServiceJwt.logout s1).auth_token = none ∧
    (AuthServiceJwt.logout s1).user_info = none ∧
    (AuthServiceJwt.logout s1).location = "/login" ∧
    fetchBillingTrials s3 r = (s3, .error "Failed to fetch trials") := by
  refine ⟨?_, ?_, rfl, rfl, rfl, rfl, ?_⟩
  · simp [handleResponse, FetchResponse.respOk, h]
  · simp [interceptorOnError]
  · simp [fetchBillingTrials, FetchResponse.respOk, h]

/-- Claim C5, witness at a concrete client state and a concrete 401
response, covering the shared-handler logout and the Billing path that
leaves the state untouched. -/
theorem unauthorized_single_logout_witness :
    handleResponse
      { auth_token := some (.signed { exp := 900 }),
        user_info := none, employee_permissions := none,
        location := "/billing", logoutCount := 0 }
      { status := 401, bodyText := "unauthorized" } =
      (AuthServiceJwt.logout
        { auth_token := some (.signed { exp := 900 }),
          user_info := none, employee_permissions := none,
          location := "/billing", logoutCount := 0 },
       .error "Your session has expired. Please login again.") ∧
    (AuthServiceJwt.logout
      { auth_token := some (.signed { exp := 900 }),
        user_info := none, employee_permissions := none,
        location := "/billing", logoutCount := 0 }).logoutCount = 1 ∧
    fetchBillingTrials
      { auth_token := some (.signed { exp := 900 }),
        user_info := none, employee_permissions := none,
        location := "/billing", logoutCount := 0 }
      { status := 401, bodyText := "unauthorized" } =
      ({ auth_token := some (.signed { exp := 900 }),
         user_info := none, employee_permissions := none,
         location := "/billing", logoutCount := 0 },
       .error "Failed to fetch trials") := by
  have h := unauthorized_single_logout
    { auth_token := some (.signed { exp := 900 }),
      user_info := none, employee_permissions := none,
      location := "/billing", logoutCount := 0 }
    { auth_token := some (.signed { exp := 900 }),
      user_info := none, employee_permissions := none,
      location := "/billing", logoutCount := 0 }
    { auth_token := some (.signed { exp := 900 }),
      user_info := none, employee_permissions := none,
      location := "/billing", logoutCount := 0 }
    { status := 401, bodyText := "unauthorized" } rfl
  exact ⟨h.1, h.2.2.1, h.2.2.2.2.2.2⟩

/-! ### Protected routing (src/components/auth/ProtectedRoute.js) -/

/-- What a `ProtectedRoute` render produces: the loading placeholder, a
`Navigate` element carrying the originally requested location in its
`state.from`, or the protected children. -/
inductive RenderResult where
  | loadingView
  | navigate (dest : String) (fromLoc : String)
  | children
deriving DecidableEq

/-- `ProtectedRoute`: the context's `isAuthenticated` is `!!user`, so the
user value doubles as the session check.  `requiredRole = none` models the
prop being absent (falsy), skipping the role check. -/
def ProtectedRoute (loading : Bool) (user : Option User)
    (requiredRole : Option String) (location : String) : RenderResult :=
  if loading then .loadingView
  else
    match user with
    | none => .navigate "/login" location
    | some u =>
      match requiredRole with
      | some r => if u.role = some r then .children else .navigate "/unauthorized" location
      | none => .children

/-! ### Claim C6 -/

/-- Claim C6: once loading has completed, `ProtectedRoute` redirects to the
login page (carrying the requested location) when there is no session,
redirects to the unauthorized page when a required role is set and the
session's role differs, and renders the children otherwise. -/
theorem ProtectedRoute_spec (u : User) (r : String) (reqRole : Option String)
    (location : String) :
    ProtectedRoute false none reqRole location = .navigate "/login" location ∧
    (u.role ≠ some r →
      ProtectedRoute false (some u) (some r) location =
        .navigate "/unauthorized" location) ∧
    ProtectedRoute false (some u) none location = .children ∧
    (u.role = some r → ProtectedRoute false (some u) (some r) location = .children) := by
  refine ⟨rfl, ?_, rfl, ?_⟩
  · intro h
    simp [ProtectedRoute, h]
  · intro h
    simp [ProtectedRoute, h]

/-- Claim C6, witness: a patient session visiting a vendor-only route is
sent to the unauthorized page, a missing session is sent to login with the
location preserved, and a matching vendor session sees the children. -/
theorem ProtectedRoute_spec_witness :
    ProtectedRoute false none (some "vendor") "/billing" =
      .navigate "/login" "/billing" ∧
    ProtectedRoute false
      (some { role := some "patient", user_id := "p1", vendor_id := none })
      (some "vendor") "/billing" = .navigate "/unauthorized" "/billing" ∧
    ProtectedRoute false
      (some { role := some "vendor", user_id := "v1", vendor_id := none })
      (some "vendor") "/billing" = .children := by
  have h1 := ProtectedRoute_spec
    { role := some "patient", user_id := "p1", vendor_id := none }
    "vendor" (some "vendor") "/billing"
  have h2 := ProtectedRoute_spec
    { role := some "vendor", user_id := "v1", vendor_id := none }
    "vendor" (some "vendor") "/billing"
  exact ⟨h1.1, h1.2.1 (by decide), h2.2.2.2 rfl⟩

/-! ### Guard component (src/components/common/PermissionGuard.js) -/

/-- What a `PermissionGuard` render produces: dimmed children while loading
(when configured), nothing, the children, or the supplied fallback. -/
inductive GuardResult where
  | dimmedChildren
  | nothing
  | children
  | fallbackContent
deriving DecidableEq

/-- `PermissionGuard`: while loading, dimmed children or nothing; afterwards
the access decision starts at `true` and the first set predicate prop (in
the order admin, edit, manage-employees, hide-from-viewers, named
permission) decides; children on access, otherwise the fallback when one
was supplied, else nothing. -/
def PermissionGuard (loading showLoading : Bool)
    (requireAdmin requireEdit requireManageEmployees hideFromViewers : Bool)
    (permission : Option String) (fallbackProvided : Bool)
    (user : Option User) (perms : Option JsObj) : GuardResult :=
  if loading && showLoading then .dimmedChildren
  else if loading then .nothing
  else
    let hasAccess :=
      if requireAdmin then isVendorAdmin user
      else if requireEdit then canEditContent user perms
      else if requireManageEmployees then canManageEmployees perms
      else if hideFromViewers then !(isViewerOnly user perms)
      else
        match permission with
        | some p => hasPermission perms p
        | none => true
    if hasAccess then .children else if fallbackProvided then .fallbackContent else .nothing

/-! ### Claim C9 -/

/-- Claim C9: once loading has completed, a `PermissionGuard` with none of
the predicate props set renders its children — never the fallback — for
every session and permission state: the access decision defaults to allow. -/
theorem PermissionGuard_default_allows (user : Option User) (perms : Option JsObj)
    (showLoading fallbackProvided : Bool) :
    PermissionGuard false showLoading false false false false none fallbackProvided
      user perms = .children := by
  rfl
